import Mathlib

/-!
Verification of the intent-routing and dispatch core of the AskMeAnything
tutoring chatbot.

The embedding covers `src/agents/intent_router.py` (class `IntentRouter`:
`looks_like_math`, `detect_intent`, `suggest_agents`) and
`src/agents/manager.py` (class `AgentManager`: the registry and `handle`),
plus the fragment of `src/agents/ap_stem_agent.py` reached by derivative
queries.

Modelling conventions:
- a query (and every other Python `str`) is a `List Char` or `String`;
- Python floats are modelled as exact rationals (`ℚ`);
- the character classes of Python regular expressions (`\d`, `\s`,
  `[a-zA-Z]`) and `str.lower` are modelled over ASCII;
- a responder ("agent") is modelled by its observable behaviour: a function
  from the call parameters to `Except String Reply`, where `Except.error e`
  models the responder raising an exception whose rendering is `e`;
- `None` for the `api_key` argument is modelled as `""` (both are falsy in
  the Python code, which only ever tests truthiness of `api_key`).
-/

namespace AskMeAnything

/-! ## Character-level utilities -/

/-- Word characters for the `\b` boundary of Python regular expressions. -/
def isWordChar (c : Char) : Bool := c.isAlpha || c.isDigit || c == '_'

/-- The ASCII whitespace characters matched by Python `\s` and stripped by
`str.strip()`. -/
def pyWhitespace (c : Char) : Bool :=
  c == ' ' || c == '\t' || c == '\n' || c == '\r' || c == '\x0b' || c == '\x0c'

/-- ASCII lowercasing of a character sequence, modelling `str.lower()`. -/
def lower (s : List Char) : List Char := s.map Char.toLower

/-- Embeds `str.strip()`: remove leading and trailing whitespace. -/
def stripChars (s : List Char) : List Char :=
  ((s.dropWhile pyWhitespace).reverse.dropWhile pyWhitespace).reverse

/-- Python's substring test `needle in hay`. -/
def containsSub (needle : List Char) : List Char → Bool
  | [] => needle.isEmpty
  | c :: t => needle.isPrefixOf (c :: t) || containsSub needle t

/-- Does one of the words `ws` start at this position (boundary on the left
already checked by the caller)?  The trailing `\b` holds when the text ends
or the next character is not a word character. -/
def wordAt (w s : List Char) : Bool :=
  w.isPrefixOf s &&
    (match s.drop w.length with
     | [] => true
     | c :: _ => !isWordChar c)

/-- Count the positions where some word of `ws` matches delimited by `\b` on
both sides; `prev` is the character just before the current position.

This models `len(re.findall(r"\b(w1|...|wk)\b", s))` for the alternations of
nonempty all-letter words used by `IntentRouter`: since every alternative
consists of word characters only and is delimited by boundaries on both
sides, two matches can never overlap and at most one alternative matches at
a given position, so the non-overlapping count produced by `findall` equals
the number of start positions counted here. -/
def countWordsFrom (ws : List (List Char)) (prev : Option Char) : List Char → Nat
  | [] => 0
  | c :: t =>
    let boundary := match prev with
      | none => true
      | some p => !isWordChar p
    (if boundary && ws.any (fun w => wordAt w (c :: t)) then 1 else 0)
      + countWordsFrom ws (some c) t

def patternCount (ws : List (List Char)) (s : List Char) : Nat :=
  countWordsFrom ws none s

/-- Embeds `re.search(r"\bw\b", s)` viewed as a Boolean. -/
def hasWordIn (w : List Char) (s : List Char) : Bool := patternCount [w] s != 0

/-- Does some word of `ws` occur with a `\b` boundary on the left only
(no condition after the word)? Models `\b(w1|...|wk)` as used in
`looks_like_math`. -/
def bPrefixFrom (ws : List (List Char)) (prev : Option Char) : List Char → Bool
  | [] => false
  | c :: t =>
    ((match prev with
      | none => true
      | some p => !isWordChar p) && ws.any (fun w => w.isPrefixOf (c :: t)))
      || bPrefixFrom ws (some c) t

/-! ## `IntentRouter.looks_like_math` (src/agents/intent_router.py lines 69-89)

Each `re.search` call is translated into a scan over the character list.  The
classes appearing in one pattern (digits, whitespace, the operator class,
letters) are pairwise disjoint, so the greedy phased scans below are exact
translations of the regular expressions. -/

def isOpChar (c : Char) : Bool :=
  c == '=' || c == '+' || c == '-' || c == '*' || c == '/' || c == '^'

/-- Match `\s*[=+\-*/^]` at the start. -/
def opAfterWS : List Char → Bool
  | [] => false
  | c :: t => if pyWhitespace c then opAfterWS t else isOpChar c

/-- Match `\d*\s*[=+\-*/^]` at the start. -/
def opAfterDigits : List Char → Bool
  | [] => false
  | c :: t =>
    if c.isDigit then opAfterDigits t
    else if pyWhitespace c then opAfterWS t
    else isOpChar c

/-- Embeds `re.search(r"\d+\s*[=+\-*/^]", s)`: digits followed by optional
whitespace and a numeric operator. -/
def check1 : List Char → Bool
  | [] => false
  | c :: t => (c.isDigit && opAfterDigits t) || check1 t

/-- Embeds `re.search(r"(?<!\d)\.\d+", s)`: a leading decimal such as `.5`. -/
def check2From (prev : Option Char) : List Char → Bool
  | [] => false
  | c :: t =>
    (c == '.' &&
      (match prev with
       | some p => !p.isDigit
       | none => true) &&
      (match t with
       | d :: _ => d.isDigit
       | [] => false))
      || check2From (some c) t

def letterParen (c : Char) : Bool := c.isAlpha || c == '('

/-- Match `\s*[a-zA-Z(]` at the start. -/
def letterParenAfterWS : List Char → Bool
  | [] => false
  | c :: t => if pyWhitespace c then letterParenAfterWS t else letterParen c

/-- Embeds `re.search(r"\d\s*[a-zA-Z(]", s) or re.search(r"\)\s*[a-zA-Z(]", s)`:
implicit multiplication such as `2x` or `)x`. -/
def check3 : List Char → Bool
  | [] => false
  | c :: t => ((c.isDigit || c == ')') && letterParenAfterWS t) || check3 t

/-- Match `[a-zA-Z]*\(` at the start. -/
def parenAfterLetters : List Char → Bool
  | [] => false
  | c :: t => if c.isAlpha then parenAfterLetters t else c == '('

/-- Match `[a-zA-Z]+\(` at the start. -/
def lettersThenParen : List Char → Bool
  | [] => false
  | c :: t => c.isAlpha && parenAfterLetters t

def funcWords : List (List Char) :=
  ["sin".data, "cos".data, "tan".data, "log".data, "ln".data, "exp".data,
   "sqrt".data]

/-- Match `(sin|cos|tan|log|ln|exp|sqrt)\(` at the start. -/
def funcCallAt (s : List Char) : Bool :=
  funcWords.any (fun w =>
    w.isPrefixOf s &&
      (match s.drop w.length with
       | c :: _ => c == '('
       | [] => false))

/-- Embeds `re.search(r"(\\[a-zA-Z]+\(|\\frac|\\sqrt|\b(sin|cos|tan|log|ln|exp|sqrt)\()",
s, re.IGNORECASE)`.  The flag is modelled by running the scan on the
lowercased text: boundaries and the letter class are invariant under
lowercasing. -/
def check4From (prev : Option Char) : List Char → Bool
  | [] => false
  | c :: t =>
    (c == '\\' && lettersThenParen t)
      || "\\frac".data.isPrefixOf (c :: t)
      || "\\sqrt".data.isPrefixOf (c :: t)
      || ((match prev with
           | none => true
           | some p => !isWordChar p) && funcCallAt (c :: t))
      || check4From (some c) t

/-- Embeds `re.search(r"[π×÷]", s)`: Greek pi and unicode
multiplication and division signs. -/
def check5 (s : List Char) : Bool :=
  s.any (fun c => c == 'π' || c == '×' || c == '÷')

/-- A digit immediately followed by `x` (from `\d+[xX]`, scanned on the
lowercased text). -/
def digitThenX : List Char → Bool
  | [] => false
  | [_] => false
  | a :: b :: t => (a.isDigit && b == 'x') || digitThenX (b :: t)

/-- Embeds `re.search(r"\bsolve\b|\bdiff(erenti|erivative)|\bintegral\b|\d+[xX]|\btheta\b",
s, re.IGNORECASE)`, modelled on the lowercased text. -/
def check6 (low : List Char) : Bool :=
  hasWordIn "solve".data low
    || bPrefixFrom ["differenti".data, "differivative".data] none low
    || hasWordIn "integral".data low
    || digitThenX low
    || hasWordIn "theta".data low

/-- Embeds `IntentRouter.looks_like_math` (lines 69-89). -/
def looks_like_math (s : List Char) : Bool :=
  check1 s || check2From none s || check3 s
    || check4From none (lower s) || check5 s || check6 (lower s)

/-! ## Keyword/pattern tables (src/agents/intent_router.py lines 15-67) -/

def mathKeywords : List String :=
  ["calculate", "math", "equation", "solve", "algebra", "geometry",
   "formula", "add", "subtract", "multiply", "divide", "arithmetic",
   "number", "fraction", "decimal", "percentage", "ratio", "proportion"]

def mathPattern : List String :=
  ["calculate", "solve", "math", "equation", "algebra", "geometry",
   "arithmetic", "formula", "add", "subtract", "multiply", "divide"]

def apStemKeywords : List String :=
  ["derivative", "integral", "calculus", "physics", "chemistry", "biology",
   "statistics", "quantum", "thermodynamics", "kinematics", "diff", "d/dx",
   "differential", "integration", "limit", "series", "sequence",
   "force", "energy", "momentum", "acceleration", "velocity",
   "molecular", "atom", "electron", "protein", "dna", "cell", "evolution"]

def apStemPattern : List String :=
  ["derivative", "integral", "calculus", "physics", "chemistry", "biology",
   "statistics", "quantum", "thermodynamics", "kinematics", "differential",
   "integration", "force", "energy", "momentum", "acceleration", "velocity",
   "molecular", "atom", "electron", "protein", "dna"]

def musicKeywords : List String :=
  ["music", "song", "artist", "album", "band", "concert", "instrument",
   "chord", "melody", "rhythm", "beat", "piano", "guitar", "violin",
   "jazz", "rock", "pop", "classical", "composer", "tune", "hear"]

def musicPattern : List String :=
  ["music", "song", "artist", "album", "band", "concert", "instrument",
   "chord", "melody", "rhythm", "beat", "piano", "guitar", "violin",
   "jazz", "rock", "pop", "classical", "composer"]

def travelKeywords : List String :=
  ["travel", "trip", "destination", "city", "country", "hotel", "flight",
   "airport", "visit", "tour", "tourism", "attraction", "restaurant",
   "location", "place", "explore", "journey", "vacation", "beach", "mountain"]

def travelPattern : List String :=
  ["travel", "trip", "destination", "city", "country", "hotel", "flight",
   "airport", "visit", "tour", "tourism", "attraction", "restaurant",
   "explore", "journey", "vacation", "beach", "mountain"]

def gamesKeywords : List String :=
  ["game", "play", "chess", "trivia", "puzzle", "riddle", "card",
   "dice", "sport", "win", "lose", "score", "rule", "strategy",
   "question", "answer", "challenge", "compete"]

def gamesPattern : List String :=
  ["game", "play", "chess", "trivia", "puzzle", "riddle", "card",
   "dice", "sport", "win", "lose", "score", "rule", "strategy",
   "challenge", "compete"]

def highSchoolKeywords : List String :=
  ["history", "literature", "government", "civics", "english", "essay",
   "book", "author", "war", "revolution", "president", "law",
   "geography", "culture", "society", "social", "topic", "question"]

def highSchoolPattern : List String :=
  ["history", "literature", "government", "civics", "english", "essay",
   "book", "author", "war", "revolution", "president", "law",
   "geography", "culture", "society"]

/-- Embeds `AGENT_KEYWORDS`, in dictionary insertion order:
identity, keyword list, pattern alternatives. -/
def agentTable : List (String × List String × List String) :=
  [("Math", mathKeywords, mathPattern),
   ("AP STEM", apStemKeywords, apStemPattern),
   ("Music", musicKeywords, musicPattern),
   ("Travel", travelKeywords, travelPattern),
   ("Games", gamesKeywords, gamesPattern),
   ("HighSchool", highSchoolKeywords, highSchoolPattern)]

/-! ## `IntentRouter.detect_intent` (lines 92-167) -/

/-- Embeds `sum(1 for keyword in keywords if keyword in query_lower)`. -/
def keywordCount (keywords : List String) (low : List Char) : Nat :=
  (keywords.filter (fun k => containsSub k.data low)).length

/-- Embeds `score = pattern_matches * 0.7 + keyword_matches * 0.3` (lines 109-120). -/
def baseScore (keywords patternWords : List String) (low : List Char) : ℚ :=
  (patternCount (patternWords.map String.data) low : ℚ) * (7 / 10)
    + (keywordCount keywords low : ℚ) * (3 / 10)

/-- The AP STEM cue `re.search(r"derivative|integral|calculus|kinematics|projectile|force|momentum", query_lower)`:
a plain substring alternation without boundaries. -/
def stemCue (low : List Char) : Bool :=
  ["derivative", "integral", "calculus", "kinematics", "projectile",
   "force", "momentum"].any (fun w => containsSub w.data low)

/-- Score of one identity, including the fixed boosts (lines 109-130).
`q` is the raw query, `low` its lowercased form. -/
def agentScore (q low : List Char) (name : String)
    (keywords patternWords : List String) : ℚ :=
  let base := baseScore keywords patternWords low
  let base := if name == "Math" && looks_like_math q then base + 3 else base
  let base := if name == "Math" && hasWordIn "geometry".data low then base + 2 else base
  if name == "AP STEM" && stemCue low then base + 2 else base

/-- The score vector over all identities (the `scores` dictionary). -/
def scores (q : List Char) : List (String × ℚ) :=
  agentTable.map (fun e => (e.1, agentScore q (lower q) e.1 e.2.1 e.2.2))

/-- Python `max` over a nonempty list of values. -/
def maxQ : List ℚ → ℚ
  | [] => 0
  | x :: xs => xs.foldl max x

/-- Embeds `max(scores, key=scores.get)`: the first pair attaining the maximal
score, in insertion order. -/
def pickBest : (String × ℚ) → List (String × ℚ) → String × ℚ
  | b, [] => b
  | b, p :: t => pickBest (if p.2 > b.2 then p else b) t

def bestOf (l : List (String × ℚ)) : String × ℚ := pickBest (l.headD ("", 0)) l.tail

/-- Embeds `name_map.get(best_agent, best_agent)` (lines 144-153). -/
def name_map (s : String) : String :=
  if s == "Math" then "Math Agent"
  else if s == "AP STEM" then "AP STEM Agent"
  else if s == "Music" then "Music Agent"
  else if s == "Travel" then "Travel Agent"
  else if s == "Games" then "Games Agent"
  else if s == "HighSchool" then "High School Agent"
  else s

/-- Embeds `IntentRouter.detect_intent` (lines 92-167).  The `scores` dictionary is
always nonempty (six static identities), so the `not scores` half of the
guard on line 133 is omitted; the zero-maximum half is kept.  The returned
confidence is the categorical string of lines 155-161. -/
def detect_intent (query : List Char) : String × String :=
  let scs := scores query
  if maxQ (scs.map Prod.snd) = 0 then ("LLM Agent", "low")
  else
    let best := bestOf scs
    let normalized := min (best.2 / 14) 1
    let mapped := name_map best.1
    let category :=
      if normalized < 3 / 10 then "low"
      else if normalized < 7 / 10 then "medium"
      else "high"
    if category == "low" then ("LLM Agent", category) else (mapped, category)

/-! ## `IntentRouter.suggest_agents` (lines 176-229) -/

/-- Per-identity normalized scores of `suggest_agents` (line 206):
`min(score / 12.0, 1.0)`. -/
def normalizedScores (q : List Char) : List (String × ℚ) :=
  agentTable.map (fun e => (e.1, min (agentScore q (lower q) e.1 e.2.1 e.2.2 / 12) 1))

/-- The local `to_cat` of `suggest_agents` (lines 209-214). -/
def to_cat (s : ℚ) : String :=
  if s < 3 / 10 then "low" else if s < 7 / 10 then "medium" else "high"

/-- Stable insertion for a descending sort: a later element is placed after
every earlier element with a greater-or-equal key, exactly as Python's
stable `sorted(..., reverse=True)` orders equal keys. -/
def insertDesc (p : String × ℚ) : List (String × ℚ) → List (String × ℚ)
  | [] => [p]
  | q :: t => if q.2 ≥ p.2 then q :: insertDesc p t else p :: q :: t

def sortDesc (l : List (String × ℚ)) : List (String × ℚ) :=
  l.foldl (fun acc p => insertDesc p acc) []

/-- Embeds `IntentRouter.suggest_agents` (lines 176-229). -/
def suggest_agents (q : List Char) (top_n : Nat) : List (String × String) :=
  ((sortDesc (normalizedScores q)).take top_n).map
    (fun p => (name_map p.1, to_cat p.2))

/-! ## Replies and responder behaviours (src/agents/manager.py) -/

/-- Apostrophe character, kept out of string literals. -/
def apos : Char := Char.ofNat 39

def aposS : String := String.mk [apos]

/-- The structured (dict) reply fields read or written by
`AgentManager.handle`: `text`, `fallback`, `fallback_reason`,
`fallback_from`.  `none` models an absent key. -/
structure ReplyDict where
  text : Option String
  fallback : Bool
  fallback_reason : Option String
  fallback_from : Option String
deriving DecidableEq

/-- A Reply is either plain text or a structured record. -/
inductive Reply where
  | str : String → Reply
  | dict : ReplyDict → Reply
deriving DecidableEq

/-- The keyword arguments offered to a responder by `AgentManager.handle`
(line 67).  The progressive retry with fewer keyword arguments (lines 66-72)
is modelled as a single call carrying the full record: a responder that does
not accept an argument is a behaviour that ignores the corresponding field. -/
structure CallParams where
  query : List Char
  fallback_pref : Option String
  api_key : String
  use_web : Bool

/-- A responder's observable behaviour: `Except.error e` models the call
raising an exception rendered as `e`. -/
def Behavior := CallParams → Except String Reply

/-- Truthiness of an optional string (Python: non-`None` and nonempty). -/
def optTruthy : Option String → Bool
  | none => false
  | some s => s != ""

/-- Embeds `resp.get('text') or ''` for a dict, the string itself otherwise
(lines 81-86). -/
def replyText : Reply → String
  | .str s => s
  | .dict d => d.text.getD ""

/-- The fixed hedge/uncertainty phrase list (lines 91-112). -/
def insufficient_phrases : List String :=
  ["i don" ++ aposS ++ "t",
   "dont",
   "do not",
   "could not",
   "couldn" ++ aposS ++ "t",
   "unable",
   "i couldn" ++ aposS ++ "t",
   "i don" ++ aposS ++ "t see",
   "sympy not available",
   "please provide",
   "try a simpler",
   "i don" ++ aposS ++ "t see a direct",
   "i" ++ aposS ++ "m not",
   "i am not",
   "no direct",
   "no variables",
   "unknown",
   "not sure",
   "i don" ++ aposS ++ "t know",
   "unable to"]

/-- The insufficiency heuristic of lines 81-121: the stripped text is empty
or shorter than 30 characters, or its lowercasing contains a hedge phrase,
or the dict flags itself as a fallback. -/
def insufficientReply (resp : Reply) : Bool :=
  let norm := stripChars (replyText resp).data
  let short_answer := norm.isEmpty || norm.length < 30
  let fallbackish := insufficient_phrases.any (fun p => containsSub p.data (lower norm))
  let structured_fallback :=
    match resp with
    | .dict d => d.fallback || optTruthy d.fallback_reason
    | .str _ => false
  fallbackish || short_answer || structured_fallback

/-- Annotation of the escalation reply (lines 127-130): `setdefault` of
`fallback_from` on a dict, or wrapping a plain string into a dict carrying
`text` and `fallback_from`. -/
def annotateFallback (lr : Reply) (agent_name : String) : Reply :=
  match lr with
  | .dict d =>
    .dict { d with fallback_from :=
              match d.fallback_from with
              | none => some agent_name
              | some x => some x }
  | .str s => .dict { text := some s, fallback := false,
                      fallback_reason := none, fallback_from := some agent_name }

/-! ## The registry and `AgentManager.handle` -/

/-- The registry keys built in `AgentManager.__init__` (lines 15-27): the
`name` attribute of each agent class. -/
def registryNames : List String :=
  ["Math Agent", "High School Agent", "Music Agent", "Travel Agent",
   "Games Agent", "LLM Agent", "AP STEM Agent", "SAT/ACT Agent",
   "College Admission Agent"]

/-- Embeds `self.agents.get`, with the behaviour of each registered responder left
abstract. -/
def mkRegistry (b : String → Behavior) (name : String) : Option Behavior :=
  if name ∈ registryNames then some (b name) else none

/-- Embeds `not agent_name or agent_name.lower() == "auto"` (line 47). -/
def autoRequested : Option String → Bool
  | none => true
  | some s => s == "" || String.mk (lower s.data) == "auto"

/-- Lines 46-57: auto-detection of the agent name.  The numeric-confidence
compatibility branch (lines 54-57) is dead in the current code —
`detect_intent` always returns a categorical string — so only the string
branch is embedded. -/
def resolveAgentName (agent_name : Option String) (query : List Char) : String :=
  if autoRequested agent_name then
    let nc := detect_intent query
    if nc.2 == "low" && nc.1 != "LLM Agent" then "LLM Agent" else nc.1
  else (agent_name.getD "")

/-- Embeds `agent_fallbacks.get(agent_name, True)` guarded by `is None`
(line 77). -/
def fallbackAllowed (agent_fallbacks : Option (String → Option Bool))
    (name : String) : Bool :=
  match agent_fallbacks with
  | none => true
  | some m => (m name).getD true

/-- Embeds `AgentManager.handle` (lines 32-138).  `registry` is the `agents`
dictionary; a `none` lookup is the `Unknown agent` branch (lines 59-61).
The outer `try`/`except` (lines 63 and 137-138) catches a raising responder
and renders it as an `Agent error:` reply; the inner `try`/`except` around
the escalation call (lines 124-134) returns the pre-escalation reply when
the LLM call raises. -/
def handle (registry : String → Option Behavior) (agent_name : Option String)
    (query : List Char) (fallback_pref : Option String) (api_key : String)
    (use_web : Bool) (agent_fallbacks : Option (String → Option Bool)) : Reply :=
  let name := resolveAgentName agent_name query
  match registry name with
  | none => .str ("Unknown agent: " ++ name)
  | some agent =>
    match agent ⟨query, fallback_pref, api_key, use_web⟩ with
    | .error e => .str ("Agent error: " ++ e)
    | .ok resp =>
      if name != "LLM Agent" && api_key != "" && fallbackAllowed agent_fallbacks name then
        if insufficientReply resp then
          match registry "LLM Agent" with
          | none => resp
          | some llm =>
            match llm ⟨query, fallback_pref, api_key, true⟩ with
            | .error _ => resp
            | .ok lr => annotateFallback lr name
        else resp
      else resp

/-! ## The AP STEM responder's derivative branch
(src/agents/ap_stem_agent.py lines 49-78 and 110-124) -/

/-- Python `str.replace`, fuelled for structural recursion: each step
consumes at least one character, so fuel equal to the text length is always
enough. -/
def replaceAllFuel (fuel : Nat) (needle repl : List Char) : List Char → List Char
  | [] => []
  | c :: t =>
    match fuel with
    | 0 => c :: t
    | f + 1 =>
      if !needle.isEmpty && needle.isPrefixOf (c :: t) then
        repl ++ replaceAllFuel f needle repl ((c :: t).drop needle.length)
      else
        c :: replaceAllFuel f needle repl t

/-- Python `str.replace`: replace every non-overlapping occurrence, left to
right.  An empty needle leaves the text unchanged (Python would interleave
the replacement; every needle used here is nonempty). -/
def replaceAll (needle repl s : List Char) : List Char :=
  replaceAllFuel s.length needle repl s

/-- The phrase-stripping loop of `_solve_derivative` (lines 58-61): the
first phrase contained in the text is removed everywhere and the result
stripped, then the loop breaks. -/
def stripPhrase : List String → List Char → List Char
  | [], e => e
  | p :: ps, e =>
    if containsSub p.data e then stripChars (replaceAll p.data [] e)
    else stripPhrase ps e

def derivPhrases : List String :=
  ["find derivative of", "find the derivative of", "derivative of", "derivative"]

/-- Parse `x` or `x**n` (the forms produced for the queries under study). -/
def parsePowExp (s : List Char) : Option Nat :=
  if s = ['x'] then some 1
  else if s.take 3 = ['x', '*', '*'] ∧ (s.drop 3).all Char.isDigit ∧ s.drop 3 ≠ [] then
    some ((s.drop 3).foldl (fun n c => 10 * n + (c.toNat - 48)) 0)
  else none

/-- Modelled from the spec: the external symbolic-math collaborator (sympy)
used by `APSTEMAgent._solve_derivative` — `sympify`, `diff` with respect to
`x`, `simplify`, and the default printer.  The spec places "math parsing via
an external symbolic-math library" out of scope and treats it as an external
collaborator returning plain text.  It is modelled here for the pure power
expressions `x**n` needed by the claims: the printed input expression
together with the printed derivative `n*x**(n-1)` by the power rule, in
sympy's output syntax (`x**2 ↦ 2*x`).  `none` models `sympify` raising. -/
def sympyDiffSimplify (s : List Char) : Option (String × String) :=
  match parsePowExp s with
  | none => none
  | some n =>
    let printed := if n = 1 then "x" else "x**" ++ toString n
    let deriv :=
      if n = 0 then "0"
      else if n = 1 then "1"
      else if n = 2 then "2*x"
      else toString n ++ "*x**" ++ toString (n - 1)
    some (printed, deriv)

/-- Embeds `APSTEMAgent._solve_derivative` (lines 49-78).  The argument is the
already-lowercased query; line 55 lowercases again (idempotent, kept).  The
self-replacements of `sin(`/`cos(`/`tan(` on line 65 are no-ops and are
omitted; the `^ → **`, `e^ → exp(` and `ln( → log(` replacements of lines
64-66 are kept in order (the `e^` one is dead after `^` has been replaced,
as in the source). -/
def solve_derivative (query : List Char) : String :=
  let e0 := lower query
  let e1 := stripPhrase derivPhrases e0
  let e2 := replaceAll "^".data "**".data e1
  let e3 := replaceAll "e^".data "exp(".data e2
  let e4 := replaceAll "ln(".data "log(".data e3
  if e4.isEmpty || (stripChars e4).length < 1 then
    "Please provide an expression to differentiate, e.g., " ++ aposS
      ++ "derivative of x^2 + 3x" ++ aposS
  else
    match sympyDiffSimplify e4 with
    | some (es, ds) =>
      "f(x) = " ++ es ++ "\nDerivative: f" ++ aposS ++ "(x) = " ++ ds
    | none =>
      "Could not solve derivative. Try a simpler expression like " ++ aposS
        ++ "derivative of x^2" ++ aposS ++ " or " ++ aposS
        ++ "derivative of sin(x)" ++ aposS

/-- Embeds `APSTEMAgent.handle` (lines 110-124) down to the derivative branch.
`rest` models everything from the integral branch onwards (lines 122-178),
which the derivative queries under study never reach. -/
def apstem_handle (rest : CallParams → String) (p : CallParams) : String :=
  let q := stripChars (lower p.query)
  if q.isEmpty then
    "Ask an AP STEM question (Calculus, Physics, Chemistry, Biology, Statistics, Computer Science, Environmental). Give details for numerical help, or ask conceptual questions for quick tips."
  else if ["derivative", "derivative of", "diff", "d/dx"].any
      (fun k => containsSub k.data q) then
    solve_derivative q
  else rest p

/-- The AP STEM responder as a behaviour: it never raises on this path and
returns plain text. -/
def apstemBehavior (rest : CallParams → String) : Behavior :=
  fun p => .ok (.str (apstem_handle rest p))

/-! ## Definitions taken from the spec's words (for the refinement claims) -/

/-- Spec §4.2: `normalize(score) = min(score / K, 1.0)`. -/
def specNormalize (K score : ℚ) : ℚ := min (score / K) 1

/-- Spec §4.2: bucket `<0.3 → Low, <0.7 → Medium, else High`. -/
def specBucket (ns : ℚ) : String :=
  if ns < 3 / 10 then "low" else if ns < 7 / 10 then "medium" else "high"

/-- The ordering Low < Medium < High of confidence categories. -/
def catRank (c : String) : Nat :=
  if c == "low" then 0 else if c == "medium" then 1 else 2

/-- A digit immediately followed by a letter, somewhere in the text
(the hypothesis of the spec's §8 property on the math boost). -/
def hasDigitThenLetter : List Char → Bool
  | [] => false
  | [_] => false
  | a :: b :: t => (a.isDigit && b.isAlpha) || hasDigitThenLetter (b :: t)

/-! ## Helper lemmas -/

theorem ws_not_alpha (c : Char) (h : pyWhitespace c = true) : c.isAlpha = false := by
  simp only [pyWhitespace, Bool.or_eq_true, beq_iff_eq] at h
  rcases h with ((((h | h) | h) | h) | h) | h <;> subst h <;> decide

theorem alpha_not_ws (c : Char) (h : c.isAlpha = true) : pyWhitespace c = false := by
  cases hpw : pyWhitespace c with
  | false => rfl
  | true => rw [ws_not_alpha c hpw] at h; exact absurd h (by simp)

/-- An adjacent digit-letter pair makes the implicit-multiplication scan
(`\d\s*[a-zA-Z(]`) succeed. -/
theorem check3_of_digitThenLetter :
    ∀ q : List Char, hasDigitThenLetter q = true → check3 q = true := by
  intro q
  induction q with
  | nil => intro h; simp [hasDigitThenLetter] at h
  | cons a t ih =>
    cases t with
    | nil => intro h; simp [hasDigitThenLetter] at h
    | cons b t2 =>
      intro h
      rw [hasDigitThenLetter] at h
      rw [check3]
      simp only [Bool.or_eq_true, Bool.and_eq_true] at h ⊢
      rcases h with ⟨ha, hb⟩ | hrec
      · left
        refine ⟨by simp [ha], ?_⟩
        rw [letterParenAfterWS, alpha_not_ws b hb]
        simp [letterParen, hb]
      · right
        exact ih hrec

/-- The winner of `max(scores, key=scores.get)` is one of the keys. -/
theorem pickBest_fst (p : String × ℚ) (l : List (String × ℚ)) :
    (pickBest p l).1 = p.1 ∨ (pickBest p l).1 ∈ l.map Prod.fst := by
  induction l generalizing p with
  | nil => exact Or.inl rfl
  | cons x t ih =>
    rw [show pickBest p (x :: t) = pickBest (if x.2 > p.2 then x else p) t from rfl]
    by_cases hc : x.2 > p.2
    · rw [if_pos hc]
      rcases ih x with h | h
      · right; rw [h]; simp
      · right
        simp only [List.map_cons, List.mem_cons]
        exact Or.inr h
    · rw [if_neg hc]
      rcases ih p with h | h
      · exact Or.inl h
      · right
        simp only [List.map_cons, List.mem_cons]
        exact Or.inr h

/-- Evaluation scheme for one identity's score from the decidable counts. -/
theorem agentScore_eval (q low : List Char) (name : String) (ks ps : List String)
    (pm km : ℕ) (mb gb sb : Bool)
    (hpm : patternCount (ps.map String.data) low = pm)
    (hkm : keywordCount ks low = km)
    (hmb : looks_like_math q = mb)
    (hgb : hasWordIn "geometry".data low = gb)
    (hsb : stemCue low = sb) :
    agentScore q low name ks ps =
      (pm : ℚ) * (7 / 10) + (km : ℚ) * (3 / 10)
        + (if name == "Math" && mb then 3 else 0)
        + (if name == "Math" && gb then 2 else 0)
        + (if name == "AP STEM" && sb then 2 else 0) := by
  unfold agentScore baseScore
  rw [hpm, hkm, hmb, hgb, hsb]
  split_ifs <;> ring

/-! ## The claims -/

/-- Claim C8: confidence bucketing is monotone.  For any two non-negative
scores `a < b` normalized with the same positive constant `K`, the bucket of
`min(a/K, 1)` is at most the bucket of `min(b/K, 1)` under the ordering
Low < Medium < High.  `to_cat` is the bucketing function of the source
(lines 155-161 and 209-214 of src/agents/intent_router.py). -/
theorem bucket_monotone (K a b : ℚ) (hK : 0 < K) (ha : 0 ≤ a) (hab : a < b) :
    catRank (to_cat (min (a / K) 1)) ≤ catRank (to_cat (min (b / K) 1)) := by
  have hdiv : a / K ≤ b / K := by gcongr
  have hmin : min (a / K) 1 ≤ min (b / K) 1 := min_le_min hdiv le_rfl
  set x := min (a / K) 1 with hx
  set y := min (b / K) 1 with hy
  clear_value x y
  unfold to_cat
  split_ifs <;> first | decide | (exfalso; linarith)

/-- Witness for C8 at `K = 14`, `a = 1`, `b = 5`. -/
theorem bucket_monotone_witness :
    catRank (to_cat (min ((1 : ℚ) / 14) 1)) ≤ catRank (to_cat (min ((5 : ℚ) / 14) 1)) :=
  bucket_monotone 14 1 5 (by norm_num) (by norm_num) (by norm_num)

/-- Claim C5: `AgentManager.handle` always returns a Reply (it is a total
function into `Reply`); an unresolvable responder name yields the
`Unknown agent` error Reply carrying the name, and a responder invocation
that raises is converted into an `Agent error` Reply carrying the exception
message.  No fault propagates out of `handle`. -/
theorem handle_error_replies (an : Option String) (q : List Char) (fp : Option String)
    (key : String) (uw : Bool) (fbs : Option (String → Option Bool)) :
    (∀ reg : String → Option Behavior, reg (resolveAgentName an q) = none →
      handle reg an q fp key uw fbs = .str ("Unknown agent: " ++ resolveAgentName an q)) ∧
    (∀ (reg : String → Option Behavior) (a : Behavior) (e : String),
      reg (resolveAgentName an q) = some a →
      a ⟨q, fp, key, uw⟩ = .error e →
      handle reg an q fp key uw fbs = .str ("Agent error: " ++ e)) := by
  constructor
  · intro reg h
    simp only [handle, h]
  · intro reg a e h1 h2
    simp only [handle, h1, h2]

/-- Witness for C5: a registry that cannot resolve the name, and one whose
responder raises. -/
theorem handle_error_replies_witness :
    handle (fun _ => none) (some "Nope") "hi".data none "" false none
      = .str "Unknown agent: Nope" ∧
    handle (fun _ => some (fun _ => Except.error "boom")) (some "Nope") "hi".data none "" false none
      = .str "Agent error: boom" := by
  have h := handle_error_replies (some "Nope") "hi".data none "" false none
  have hres : resolveAgentName (some "Nope") "hi".data = "Nope" := rfl
  constructor
  · rw [h.1 (fun _ => none) rfl, hres]
    decide
  · rw [h.2 (fun _ => some (fun _ => Except.error "boom"))
      (fun _ => Except.error "boom") "boom" rfl rfl]
    decide

/-- Claim C2: every query containing a digit immediately followed by a
letter makes `looks_like_math` fire, and the score the Intent Scorer
assigns to the Math identity (the head entry of the score vector) includes
the additive `+3.0` boost, hence is at least the base score plus 3. -/
theorem digit_letter_math_boost (q : List Char) (h : hasDigitThenLetter q = true) :
    looks_like_math q = true ∧
    (scores q).head? = some ("Math", agentScore q (lower q) "Math" mathKeywords mathPattern) ∧
    agentScore q (lower q) "Math" mathKeywords mathPattern
      ≥ baseScore mathKeywords mathPattern (lower q) + 3 := by
  have hll : looks_like_math q = true := by
    unfold looks_like_math
    rw [check3_of_digitThenLetter q h]
    simp
  refine ⟨hll, by simp [scores, agentTable], ?_⟩
  unfold agentScore
  rw [hll]
  simp only [beq_self_eq_true, Bool.true_and, Bool.and_true, if_true]
  have hstem : (("Math" == "AP STEM") : Bool) = false := by decide
  rw [hstem]
  simp only [Bool.false_and, if_false]
  split_ifs <;> linarith

/-- Witness for C2 at the query `"2x+3=7"` from the spec. -/
theorem digit_letter_math_boost_witness :
    looks_like_math "2x+3=7".data = true ∧
    (scores "2x+3=7".data).head? =
      some ("Math", agentScore "2x+3=7".data (lower "2x+3=7".data) "Math" mathKeywords mathPattern) ∧
    agentScore "2x+3=7".data (lower "2x+3=7".data) "Math" mathKeywords mathPattern
      ≥ baseScore mathKeywords mathPattern (lower "2x+3=7".data) + 3 :=
  digit_letter_math_boost "2x+3=7".data (by decide)

/-- Claim C6: escalation is attempted only when the chosen responder is not
the LLM Agent, credentials are present, and the per-responder override map
permits fallback; under that guard it triggers exactly on the insufficiency
heuristic (`insufficientReply`).  Without credentials the reply is returned
untouched; with the guard satisfied and a sufficient reply it is returned
untouched; with the guard satisfied and an insufficient reply the result is
the escalation outcome. -/
theorem escalation_guard_exact (reg : String → Option Behavior) (an : Option String)
    (q : List Char) (fp : Option String) (key : String) (uw : Bool)
    (fbs : Option (String → Option Bool)) (a : Behavior) (resp : Reply)
    (hreg : reg (resolveAgentName an q) = some a)
    (hresp : a ⟨q, fp, key, uw⟩ = .ok resp) :
    (key = "" → handle reg an q fp key uw fbs = resp) ∧
    (¬ (resolveAgentName an q ≠ "LLM Agent" ∧ key ≠ "" ∧
        fallbackAllowed fbs (resolveAgentName an q) = true) →
      handle reg an q fp key uw fbs = resp) ∧
    (resolveAgentName an q ≠ "LLM Agent" → key ≠ "" →
      fallbackAllowed fbs (resolveAgentName an q) = true →
      insufficientReply resp = false →
      handle reg an q fp key uw fbs = resp) ∧
    (resolveAgentName an q ≠ "LLM Agent" → key ≠ "" →
      fallbackAllowed fbs (resolveAgentName an q) = true →
      insufficientReply resp = true →
      handle reg an q fp key uw fbs =
        (match reg "LLM Agent" with
         | none => resp
         | some llm =>
           match llm ⟨q, fp, key, true⟩ with
           | .error _ => resp
           | .ok lr => annotateFallback lr (resolveAgentName an q))) := by
  have hguard : (resolveAgentName an q != "LLM Agent" && key != ""
      && fallbackAllowed fbs (resolveAgentName an q)) = true ↔
      (resolveAgentName an q ≠ "LLM Agent" ∧ key ≠ "" ∧
        fallbackAllowed fbs (resolveAgentName an q) = true) := by
    simp [Bool.and_eq_true, bne_iff_ne, and_assoc]
  refine ⟨?_, ?_, ?_, ?_⟩
  · intro hk
    subst hk
    simp only [handle, hreg, hresp]
    simp
  · intro hng
    simp only [handle, hreg, hresp]
    rw [if_neg]
    intro hg
    exact hng (hguard.mp hg)
  · intro h1 h2 h3 hsuf
    simp only [handle, hreg, hresp]
    rw [if_pos (hguard.mpr ⟨h1, h2, h3⟩), if_neg]
    simp [hsuf]
  · intro h1 h2 h3 hinsuf
    simp only [handle, hreg, hresp]
    rw [if_pos (hguard.mpr ⟨h1, h2, h3⟩), if_pos hinsuf]

/-- Witness for C6: a short reply from the Math responder, no credentials —
`handle` returns the responder's reply unchanged. -/
theorem escalation_guard_exact_witness :
    handle (mkRegistry (fun _ => fun _ => Except.ok (Reply.str "short")))
      (some "Math Agent") "hi".data none "" false none = Reply.str "short" := by
  have hreg : mkRegistry (fun _ => fun _ => Except.ok (Reply.str "short"))
      (resolveAgentName (some "Math Agent") "hi".data)
      = some (fun _ => Except.ok (Reply.str "short")) := by
    rw [show resolveAgentName (some "Math Agent") "hi".data = "Math Agent" from rfl]
    unfold mkRegistry
    rw [if_pos (show "Math Agent" ∈ registryNames by decide)]
  exact (escalation_guard_exact
      (mkRegistry (fun _ => fun _ => Except.ok (Reply.str "short")))
      (some "Math Agent") "hi".data none "" false none
      (fun _ => Except.ok (Reply.str "short")) (Reply.str "short")
      hreg rfl).1 rfl

/-- Claim C7: when escalation fires, the LLM Agent is re-invoked with
`use_web` forced to `True` (whatever the original flag was) and its reply is
annotated with the originating responder's name under `fallback_from`
(`annotateFallback`); if the escalation invocation raises, `handle` returns
the original pre-escalation reply. -/
theorem escalation_forces_web_and_recovers (reg : String → Option Behavior)
    (an : Option String) (q : List Char) (fp : Option String) (key : String)
    (uw : Bool) (fbs : Option (String → Option Bool)) (a llm : Behavior) (resp : Reply)
    (hreg : reg (resolveAgentName an q) = some a)
    (hresp : a ⟨q, fp, key, uw⟩ = .ok resp)
    (hname : resolveAgentName an q ≠ "LLM Agent")
    (hkey : key ≠ "")
    (hallow : fallbackAllowed fbs (resolveAgentName an q) = true)
    (hinsuf : insufficientReply resp = true)
    (hllm : reg "LLM Agent" = some llm) :
    (∀ lr, llm ⟨q, fp, key, true⟩ = .ok lr →
      handle reg an q fp key uw fbs = annotateFallback lr (resolveAgentName an q)) ∧
    (∀ e, llm ⟨q, fp, key, true⟩ = .error e →
      handle reg an q fp key uw fbs = resp) := by
  have hguard : (resolveAgentName an q != "LLM Agent" && key != ""
      && fallbackAllowed fbs (resolveAgentName an q)) = true := by
    simp [Bool.and_eq_true, bne_iff_ne]
    exact ⟨⟨hname, hkey⟩, hallow⟩
  constructor
  · intro lr h
    simp only [handle, hreg, hresp]
    rw [if_pos hguard, if_pos hinsuf]
    simp only [hllm, h]
  · intro e h
    simp only [handle, hreg, hresp]
    rw [if_pos hguard, if_pos hinsuf]
    simp only [hllm, h]

/-- Witness for C7: the Math responder returns an empty (insufficient)
reply, credentials are present, and the LLM behaviour answers; the result is
the annotated LLM reply, with `use_web` forced on even though the original
call had `use_web = false`. -/
theorem escalation_forces_web_and_recovers_witness :
    handle
      (mkRegistry (fun n => fun p =>
        if n == "LLM Agent" then
          (if p.use_web then Except.ok (Reply.str "web-augmented llm answer")
           else Except.ok (Reply.str "plain llm answer"))
        else Except.ok (Reply.str "")))
      (some "Math Agent") "hi".data none "k" false none
      = Reply.dict { text := some "web-augmented llm answer", fallback := false,
                     fallback_reason := none, fallback_from := some "Math Agent" } := by
  have hres : resolveAgentName (some "Math Agent") "hi".data = "Math Agent" := rfl
  have hreg : mkRegistry (fun n => fun p =>
      if n == "LLM Agent" then
        (if p.use_web then Except.ok (Reply.str "web-augmented llm answer")
         else Except.ok (Reply.str "plain llm answer"))
      else Except.ok (Reply.str ""))
      (resolveAgentName (some "Math Agent") "hi".data)
      = some (fun p =>
        if ("Math Agent" == "LLM Agent" : Bool) then
          (if p.use_web then Except.ok (Reply.str "web-augmented llm answer")
           else Except.ok (Reply.str "plain llm answer"))
        else Except.ok (Reply.str "")) := by
    rw [hres]
    unfold mkRegistry
    rw [if_pos (show "Math Agent" ∈ registryNames by decide)]
  have hllm : mkRegistry (fun n => fun p =>
      if n == "LLM Agent" then
        (if p.use_web then Except.ok (Reply.str "web-augmented llm answer")
         else Except.ok (Reply.str "plain llm answer"))
      else Except.ok (Reply.str "")) "LLM Agent"
      = some (fun p =>
        if ("LLM Agent" == "LLM Agent" : Bool) then
          (if p.use_web then Except.ok (Reply.str "web-augmented llm answer")
           else Except.ok (Reply.str "plain llm answer"))
        else Except.ok (Reply.str "")) := by
    unfold mkRegistry
    rw [if_pos (show "LLM Agent" ∈ registryNames by decide)]
  have h := escalation_forces_web_and_recovers
    (mkRegistry (fun n => fun p =>
      if n == "LLM Agent" then
        (if p.use_web then Except.ok (Reply.str "web-augmented llm answer")
         else Except.ok (Reply.str "plain llm answer"))
      else Except.ok (Reply.str "")))
    (some "Math Agent") "hi".data none "k" false none
    (fun p => if ("Math Agent" == "LLM Agent" : Bool) then
        (if p.use_web then Except.ok (Reply.str "web-augmented llm answer")
         else Except.ok (Reply.str "plain llm answer"))
      else Except.ok (Reply.str ""))
    (fun p => if ("LLM Agent" == "LLM Agent" : Bool) then
        (if p.use_web then Except.ok (Reply.str "web-augmented llm answer")
         else Except.ok (Reply.str "plain llm answer"))
      else Except.ok (Reply.str ""))
    (Reply.str "") hreg rfl (by decide) (by decide) (by decide) (by decide) hllm
  rw [h.1 (Reply.str "web-augmented llm answer") rfl, hres]
  decide

/-- The names `detect_intent` can return: the mapped full display names and
the low-confidence fallback. -/
def routableNames : List String :=
  ["LLM Agent", "Math Agent", "AP STEM Agent", "Music Agent", "Travel Agent",
   "Games Agent", "High School Agent"]

theorem bestOf_scores_fst (q : List Char) :
    (bestOf (scores q)).1 ∈
      (["Math", "AP STEM", "Music", "Travel", "Games", "HighSchool"] : List String) := by
  have h := pickBest_fst ((scores q).headD ("", 0)) (scores q).tail
  rw [show bestOf (scores q) = pickBest ((scores q).headD ("", 0)) (scores q).tail from rfl]
  rcases h with h | h
  · rw [h]
    simp [scores, agentTable]
  · have htail : ((scores q).tail).map Prod.fst =
        ["AP STEM", "Music", "Travel", "Games", "HighSchool"] := by
      simp [scores, agentTable]
    rw [htail] at h
    simp only [List.mem_cons, List.not_mem_nil, or_false] at h
    rcases h with h | h | h | h | h <;> rw [h] <;> decide

theorem name_map_best_mem (q : List Char) :
    name_map (bestOf (scores q)).1 ∈ routableNames := by
  have hb := bestOf_scores_fst q
  simp only [List.mem_cons, List.not_mem_nil, or_false] at hb
  rcases hb with h | h | h | h | h | h <;> rw [h] <;> decide

theorem detect_intent_fst_mem (q : List Char) :
    (detect_intent q).1 ∈ routableNames := by
  simp only [detect_intent]
  split_ifs <;> first | decide | exact name_map_best_mem q

theorem detect_intent_snd_mem (q : List Char) :
    (detect_intent q).2 ∈ (["low", "medium", "high"] : List String) := by
  simp only [detect_intent]
  split_ifs <;> simp

theorem resolveAgentName_auto_mem (q : List Char) (an : Option String)
    (hauto : autoRequested an = true) :
    resolveAgentName an q ∈ routableNames := by
  unfold resolveAgentName
  rw [hauto]
  simp only [if_true]
  split_ifs with h
  · decide
  · exact detect_intent_fst_mem q

/-- Claim C10: every agent name returned by `detect_intent` is a registry
key, the confidence is one of "low"/"medium"/"high", and auto-routed
dispatch (`agent_name` `None` or `"auto"`) always resolves to a registered
responder, so the `Unknown agent` branch is never taken, for every query and
every registry behaviour. -/
theorem detect_intent_registry_closed (q : List Char) (b : String → Behavior) :
    (detect_intent q).1 ∈ registryNames ∧
    (detect_intent q).2 ∈ (["low", "medium", "high"] : List String) ∧
    (mkRegistry b (resolveAgentName none q)).isSome = true ∧
    (mkRegistry b (resolveAgentName (some "auto") q)).isSome = true := by
  have hsub : ∀ n ∈ routableNames, n ∈ registryNames := by decide
  have hsome : ∀ n ∈ routableNames, (mkRegistry b n).isSome = true := by
    intro n hn
    unfold mkRegistry
    rw [if_pos (hsub n hn)]
    rfl
  refine ⟨hsub _ (detect_intent_fst_mem q), detect_intent_snd_mem q,
    hsome _ (resolveAgentName_auto_mem q none rfl),
    hsome _ (resolveAgentName_auto_mem q (some "auto") (by decide))⟩

/-! ## Concrete evaluations of the scorer -/

theorem scores_two_plus_three :
    scores "2+3".data =
      [("Math", 3), ("AP STEM", 0), ("Music", 0), ("Travel", 0), ("Games", 0),
       ("HighSchool", 0)] := by
  have hM := agentScore_eval "2+3".data (lower "2+3".data) "Math" mathKeywords mathPattern
    0 0 true false false (by decide) (by decide) (by decide) (by decide) (by decide)
  have hA := agentScore_eval "2+3".data (lower "2+3".data) "AP STEM" apStemKeywords apStemPattern
    0 0 true false false (by decide) (by decide) (by decide) (by decide) (by decide)
  have hMu := agentScore_eval "2+3".data (lower "2+3".data) "Music" musicKeywords musicPattern
    0 0 true false false (by decide) (by decide) (by decide) (by decide) (by decide)
  have hT := agentScore_eval "2+3".data (lower "2+3".data) "Travel" travelKeywords travelPattern
    0 0 true false false (by decide) (by decide) (by decide) (by decide) (by decide)
  have hG := agentScore_eval "2+3".data (lower "2+3".data) "Games" gamesKeywords gamesPattern
    0 0 true false false (by decide) (by decide) (by decide) (by decide) (by decide)
  have hH := agentScore_eval "2+3".data (lower "2+3".data) "HighSchool" highSchoolKeywords
    highSchoolPattern 0 0 true false false (by decide) (by decide) (by decide) (by decide)
    (by decide)
  simp only [scores, agentTable, List.map_cons, List.map_nil]
  rw [hM, hA, hMu, hT, hG, hH]
  norm_num
  decide

theorem detect_two_plus_three : detect_intent "2+3".data = ("LLM Agent", "low") := by
  have hmax : maxQ ((scores "2+3".data).map Prod.snd) ≠ 0 := by
    rw [scores_two_plus_three]
    simp only [List.map_cons, List.map_nil, maxQ, List.foldl]
    norm_num [max_def]
  have hbest : bestOf (scores "2+3".data) = ("Math", 3) := by
    rw [scores_two_plus_three]
    simp only [bestOf, List.headD, List.tail, pickBest]
    norm_num
  simp only [detect_intent, hbest]
  rw [if_neg hmax]
  norm_num [min_def]

theorem resolve_two_plus_three : resolveAgentName none "2+3".data = "LLM Agent" := by
  unfold resolveAgentName
  rw [detect_two_plus_three]
  rfl

/-- Claim C1, counterexample: `detect_intent("2+3")` does not select the
Math Agent: the Math identity scores 3.0, which normalizes below the Low
threshold, so the router returns the LLM Agent with low confidence, and
auto-routing dispatches to the LLM Agent rather than the Math responder. -/
theorem detect_two_plus_three_not_math :
    detect_intent "2+3".data = ("LLM Agent", "low") ∧
    resolveAgentName none "2+3".data = "LLM Agent" ∧
    resolveAgentName none "2+3".data ≠ "Math Agent" := by
  refine ⟨detect_two_plus_three, resolve_two_plus_three, ?_⟩
  rw [resolve_two_plus_three]
  decide

/-- Claim C1, amended: dispatch with no explicit responder name and the
query `"2+3"` resolves to the generic fallback responder (the LLM Agent)
with Low confidence — the boosted Math score 3.0 normalizes to 3/14 < 0.3 —
and `handle` invokes the LLM Agent on the query and returns its reply. -/
theorem dispatch_two_plus_three_llm (b : String → Behavior) (fp : Option String)
    (key : String) (uw : Bool) (fbs : Option (String → Option Bool)) (r : Reply)
    (h : b "LLM Agent" ⟨"2+3".data, fp, key, uw⟩ = .ok r) :
    detect_intent "2+3".data = ("LLM Agent", "low") ∧
    handle (mkRegistry b) none "2+3".data fp key uw fbs = r := by
  refine ⟨detect_two_plus_three, ?_⟩
  have hres : resolveAgentName none "2+3".data = "LLM Agent" := resolve_two_plus_three
  have hreg : mkRegistry b "LLM Agent" = some (b "LLM Agent") := by
    unfold mkRegistry
    rw [if_pos (show "LLM Agent" ∈ registryNames by decide)]
  simp only [handle, hres, hreg, h]
  simp

/-- Witness for C1 (amended) with a concrete LLM behaviour. -/
theorem dispatch_two_plus_three_llm_witness :
    detect_intent "2+3".data = ("LLM Agent", "low") ∧
    handle (mkRegistry (fun _ => fun _ => Except.ok (Reply.str "llm reply")))
      none "2+3".data none "" false none = Reply.str "llm reply" :=
  dispatch_two_plus_three_llm (fun _ => fun _ => Except.ok (Reply.str "llm reply"))
    none "" false none (Reply.str "llm reply") rfl

/-- Claim C3: on the primary decision path the confidence category is the
spec's bucket of `min(score / 14, 1)` over the winning score, and the
top-N suggestion path normalizes every identity's score as
`min(score / 12, 1)` before bucketing with the same cut points. -/
theorem normalize_constants_and_buckets (q : List Char) :
    (maxQ ((scores q).map Prod.snd) ≠ 0 →
      (detect_intent q).2 = specBucket (specNormalize 14 (bestOf (scores q)).2)) ∧
    (∀ n, suggest_agents q n =
      ((sortDesc ((scores q).map (fun p => (p.1, specNormalize 12 p.2)))).take n).map
        (fun p => (name_map p.1, specBucket p.2))) := by
  constructor
  · intro h
    simp only [detect_intent, if_neg h, specBucket, specNormalize]
    split_ifs <;> rfl
  · intro n
    rfl

/-- Witness for C3 at the query `"2+3"` (nonzero maximum score). -/
theorem normalize_constants_and_buckets_witness :
    (detect_intent "2+3".data).2
      = specBucket (specNormalize 14 (bestOf (scores "2+3".data)).2) ∧
    suggest_agents "2+3".data 3 =
      ((sortDesc ((scores "2+3".data).map (fun p => (p.1, specNormalize 12 p.2)))).take 3).map
        (fun p => (name_map p.1, specBucket p.2)) :=
  ⟨(normalize_constants_and_buckets "2+3".data).1
      (by rw [scores_two_plus_three]
          simp only [List.map_cons, List.map_nil, maxQ, List.foldl]
          norm_num [max_def]),
   (normalize_constants_and_buckets "2+3".data).2 3⟩

theorem scores_random_text :
    scores "asdkjfh random text".data =
      [("Math", 0), ("AP STEM", 0), ("Music", 0), ("Travel", 0), ("Games", 0),
       ("HighSchool", 0)] := by
  have hM := agentScore_eval "asdkjfh random text".data (lower "asdkjfh random text".data)
    "Math" mathKeywords mathPattern 0 0 false false false
    (by decide) (by decide) (by decide) (by decide) (by decide)
  have hA := agentScore_eval "asdkjfh random text".data (lower "asdkjfh random text".data)
    "AP STEM" apStemKeywords apStemPattern 0 0 false false false
    (by decide) (by decide) (by decide) (by decide) (by decide)
  have hMu := agentScore_eval "asdkjfh random text".data (lower "asdkjfh random text".data)
    "Music" musicKeywords musicPattern 0 0 false false false
    (by decide) (by decide) (by decide) (by decide) (by decide)
  have hT := agentScore_eval "asdkjfh random text".data (lower "asdkjfh random text".data)
    "Travel" travelKeywords travelPattern 0 0 false false false
    (by decide) (by decide) (by decide) (by decide) (by decide)
  have hG := agentScore_eval "asdkjfh random text".data (lower "asdkjfh random text".data)
    "Games" gamesKeywords gamesPattern 0 0 false false false
    (by decide) (by decide) (by decide) (by decide) (by decide)
  have hH := agentScore_eval "asdkjfh random text".data (lower "asdkjfh random text".data)
    "HighSchool" highSchoolKeywords highSchoolPattern 0 0 false false false
    (by decide) (by decide) (by decide) (by decide) (by decide)
  simp only [scores, agentTable, List.map_cons, List.map_nil]
  rw [hM, hA, hMu, hT, hG, hH]
  norm_num

/-- Claim C4: whenever every identity's score is exactly 0, the scorer
reports the sentinel ("LLM Agent", "low") rather than an arbitrary
zero-score winner, and auto-routed dispatch resolves such a query to the
generic fallback responder. -/
theorem zero_scores_llm_fallback (q : List Char)
    (h : ∀ p ∈ scores q, p.2 = 0) :
    detect_intent q = ("LLM Agent", "low") ∧
    resolveAgentName none q = "LLM Agent" := by
  have hmax : maxQ ((scores q).map Prod.snd) = 0 := by
    simp only [scores, agentTable, List.map_cons, List.map_nil,
      List.forall_mem_cons] at h
    obtain ⟨h1, h2, h3, h4, h5, h6, -⟩ := h
    simp only [scores, agentTable, List.map_cons, List.map_nil, maxQ, List.foldl]
    rw [h1, h2, h3, h4, h5, h6]
    simp
  have hd : detect_intent q = ("LLM Agent", "low") := by
    simp only [detect_intent]
    rw [if_pos hmax]
  refine ⟨hd, ?_⟩
  unfold resolveAgentName
  rw [hd]
  rfl

/-- Witness for C4 at the spec's no-keyword query `"asdkjfh random text"`. -/
theorem zero_scores_llm_fallback_witness :
    detect_intent "asdkjfh random text".data = ("LLM Agent", "low") ∧
    resolveAgentName none "asdkjfh random text".data = "LLM Agent" :=
  zero_scores_llm_fallback "asdkjfh random text".data
    (by rw [scores_random_text]
        intro p hp
        simp only [List.mem_cons, List.not_mem_nil, or_false] at hp
        rcases hp with h | h | h | h | h | h <;> rw [h])

/-- Claim C9, counterexample: the registry has no key `"AP STEM"` (the
AP STEM responder is registered as `"AP STEM Agent"`), so
`dispatch("AP STEM", "derivative of x^2", ...)` returns the
`Unknown agent: AP STEM` error Reply, whose text does not contain `2*x`. -/
theorem dispatch_ap_stem_unknown :
    handle (mkRegistry (fun _ => fun _ => Except.ok (Reply.str "")))
      (some "AP STEM") "derivative of x^2".data none "" false none
      = .str "Unknown agent: AP STEM" ∧
    ("AP STEM" ∈ registryNames) = False ∧
    containsSub "2*x".data "Unknown agent: AP STEM".data = false := by
  refine ⟨?_, by simp; decide, by decide⟩
  have hres : resolveAgentName (some "AP STEM") "derivative of x^2".data = "AP STEM" := rfl
  have hreg : mkRegistry (fun _ => fun _ => Except.ok (Reply.str "")) "AP STEM" = none := by
    unfold mkRegistry
    rw [if_neg (show ¬ ("AP STEM" ∈ registryNames) by decide)]
  simp only [handle, hres, hreg]
  decide

/-- Claim C9, amended: dispatch with the registry key `"AP STEM Agent"` and
the query `"derivative of x^2"` reaches the AP STEM responder's derivative
branch and returns a Reply whose text contains the differentiation result
`2*x`. -/
theorem dispatch_ap_stem_agent_derivative (rest : CallParams → String)
    (b : String → Behavior) (hb : b "AP STEM Agent" = apstemBehavior rest)
    (fp : Option String) (uw : Bool) (fbs : Option (String → Option Bool)) :
    handle (mkRegistry b) (some "AP STEM Agent") "derivative of x^2".data fp "" uw fbs
      = .str ("f(x) = x**2\nDerivative: f" ++ aposS ++ "(x) = 2*x") ∧
    containsSub "2*x".data
      ("f(x) = x**2\nDerivative: f" ++ aposS ++ "(x) = 2*x").data = true := by
  refine ⟨?_, by decide⟩
  have hres : resolveAgentName (some "AP STEM Agent") "derivative of x^2".data
      = "AP STEM Agent" := rfl
  have hreg : mkRegistry b "AP STEM Agent" = some (b "AP STEM Agent") := by
    unfold mkRegistry
    rw [if_pos (show "AP STEM Agent" ∈ registryNames by decide)]
  have hcall : apstem_handle rest ⟨"derivative of x^2".data, fp, "", uw⟩
      = "f(x) = x**2\nDerivative: f" ++ aposS ++ "(x) = 2*x" := by
    simp only [apstem_handle]
    rw [if_neg (show ¬ ((stripChars (lower "derivative of x^2".data)).isEmpty = true)
          from by decide),
      if_pos (show (["derivative", "derivative of", "diff", "d/dx"].any
          (fun k => containsSub k.data (stripChars (lower "derivative of x^2".data)))) = true
          from by decide)]
    rfl
  simp only [handle, hres, hreg, hb, apstemBehavior, hcall]
  simp

/-- Witness for C9 (amended) with a concrete remainder behaviour. -/
theorem dispatch_ap_stem_agent_derivative_witness :
    handle (mkRegistry (fun n => if n == "AP STEM Agent"
        then apstemBehavior (fun _ => "") else fun _ => Except.ok (Reply.str "")))
      (some "AP STEM Agent") "derivative of x^2".data none "" false none
      = .str ("f(x) = x**2\nDerivative: f" ++ aposS ++ "(x) = 2*x") ∧
    containsSub "2*x".data
      ("f(x) = x**2\nDerivative: f" ++ aposS ++ "(x) = 2*x").data = true :=
  dispatch_ap_stem_agent_derivative (fun _ => "")
    (fun n => if n == "AP STEM Agent"
        then apstemBehavior (fun _ => "") else fun _ => Except.ok (Reply.str ""))
    rfl none false none

end AskMeAnything
